import Mathlib

/-!
# Verification of the MYOB Retro Runner simulation core

This file is a shallow embedding, in Lean 4, of the simulation core of the
MYOB Retro Runner game (the JavaScript classes `Obstacle`, `Coin`, `Enemy`,
`Player`, `PowerUpManager`, `SpawnManager` and `Game`), together with
theorems settling the specification claims about it.

Modelling conventions:
* JavaScript numbers are embedded as `ℚ` (positions, velocities, sizes) or
  as `ℕ` (scores, frame counters, timers, spawn intervals, which the code
  only ever holds at non-negative integer values).
* `Math.random()` draws are passed in explicitly as `ℚ` parameters.
* `Math.sqrt` (used only by the coin magnetic-attraction step) is embedded
  as an explicit function parameter `sqrtQ : ℚ → ℚ`, since exact square
  roots leave `ℚ`; every theorem below either quantifies over `sqrtQ` or
  does not depend on it.  Note that in Lean `x / 0 = 0` on `ℚ` whereas the
  JavaScript division `0 / 0` yields `NaN`; no theorem below relies on the
  value of a division whose divisor is zero.
* Rendering, sprite loading, DOM access, sound and the animation-frame
  clock are I/O plumbing outside the simulation core and are not modelled;
  the numeric animation counters (`frameTimer`, `frameX`, ...) that the
  update methods mutate are kept.
* Methods that mutate `this` are embedded as functions from the old record
  to the new record.
-/

/-- The game canvas width; the `Game` constructor sets `canvas.width = 800`. -/
def canvasWidth : ℚ := 800

/-- The game canvas height; the `Game` constructor sets `canvas.height = 400`. -/
def canvasHeight : ℚ := 400

/-- An axis-aligned rectangle: the position/size quadruple that the
duck-typed collision tests (`Enemy.collidesWith`, the non-coin branch of
`Player.collidesWith`) read from their argument. -/
structure Box where
  x : ℚ
  y : ℚ
  width : ℚ
  height : ℚ
deriving DecidableEq

/-- The axis-aligned rectangle overlap test shared by `Enemy.collidesWith`
and the non-coin branch of `Player.collidesWith`:

`this.x < object.x + object.width && this.x + this.width > object.x &&
 this.y < object.y + object.height && this.y + this.height > object.y`. -/
def Box.overlaps (a b : Box) : Bool :=
  decide (a.x < b.x + b.width) && decide (a.x + a.width > b.x) &&
  decide (a.y < b.y + b.height) && decide (a.y + a.height > b.y)

/-- State of an `Obstacle` (file `js/obstacle.js`): position, fixed 40×40
footprint, horizontal speed, removal flag, cosmetic variant and animation
counters.  The sprite `Image` and its load flags are I/O and not modelled. -/
structure Obstacle where
  x : ℚ
  y : ℚ
  width : ℚ
  height : ℚ
  speed : ℚ
  markedForDeletion : Bool
  obstacleType : ℕ
  frameX : ℕ
  frameTimer : ℕ
  pulseValue : ℚ
  pulseDirection : ℚ
deriving DecidableEq

/-- The `Obstacle` constructor.  `heightValue` and `typeRoll` are the two
`Math.random()` draws; `x` starts at `game.canvas.width` and the
ground position is `game.canvas.height - 50`. -/
def Obstacle.new (cw ch speed heightValue typeRoll : ℚ) : Obstacle :=
  let groundPosition := ch - 50
  let heightVariation : ℚ := 100
  let y :=
    if heightValue < 0.7 then groundPosition - heightVariation * 0.1
    else if heightValue < 0.85 then groundPosition - heightVariation * 0.5
    else groundPosition - heightVariation * 0.8
  { x := cw
    y := y
    width := 40
    height := 40
    speed := speed
    markedForDeletion := false
    obstacleType := (⌊typeRoll * 4⌋).toNat
    frameX := 0
    frameTimer := 0
    pulseValue := 0
    pulseDirection := 1 }

/-- `Obstacle.update`: move left by `speed`, flag for deletion once fully
past the left edge, advance the 2-frame animation every 10 ticks, and
advance the pulsating glow value. -/
def Obstacle.update (o : Obstacle) : Obstacle :=
  let x := o.x - o.speed
  let marked := if x + o.width < 0 then true else o.markedForDeletion
  let frameTimer := o.frameTimer + 1
  let (frameTimer, frameX) :=
    if frameTimer ≥ 10 then (0, (o.frameX + 1) % 2) else (frameTimer, o.frameX)
  let pulseValue := o.pulseValue + 0.05 * o.pulseDirection
  let (pulseValue, pulseDirection) :=
    if pulseValue ≥ 1 then ((1 : ℚ), (-1 : ℚ))
    else if pulseValue ≤ 0 then ((0 : ℚ), (1 : ℚ))
    else (pulseValue, o.pulseDirection)
  { o with x := x, markedForDeletion := marked, frameTimer := frameTimer,
           frameX := frameX, pulseValue := pulseValue,
           pulseDirection := pulseDirection }

/-- State of a `Coin` (file `js/coin.js`). -/
structure Coin where
  x : ℚ
  y : ℚ
  size : ℚ
  value : ℕ
  width : ℚ
  height : ℚ
  speed : ℚ
  markedForDeletion : Bool
  frameX : ℕ
  frameTimer : ℕ
deriving DecidableEq

/-- `Coin.determineSize`: small (60%), medium (30%) or large (10%). -/
def Coin.determineSize (sizeRoll : ℚ) : ℚ :=
  if sizeRoll < 0.6 then 16 else if sizeRoll < 0.9 then 24 else 32

/-- `Coin.determineValue`: 1 point for a small coin, 2 for medium, 3 for
large. -/
def Coin.determineValue (size : ℚ) : ℕ :=
  if size = 16 then 1 else if size = 24 then 2 else 3

/-- The `Coin` constructor.  `sizeRoll`, `heightValue` and `heightJitter`
are the `Math.random()` draws (the jitter draw is only consumed by three of
the five placement branches); `playerY`/`playerHeight` come from
`game.player`. -/
def Coin.new (cw ch playerY playerHeight speed sizeRoll heightValue heightJitter : ℚ) :
    Coin :=
  let size := Coin.determineSize sizeRoll
  let groundPosition := ch - 20
  let playerCenterY := playerY + playerHeight / 2 - size / 2
  let y :=
    if heightValue < 0.15 then groundPosition - 30
    else if heightValue < 0.4 then playerCenterY
    else if heightValue < 0.65 then groundPosition - 80 - heightJitter * 40
    else if heightValue < 0.9 then groundPosition - 120 - heightJitter * 40
    else groundPosition - 180 - heightJitter * 30
  { x := cw
    y := y
    size := size
    value := Coin.determineValue size
    width := size
    height := size
    speed := speed
    markedForDeletion := false
    frameX := 0
    frameTimer := 0 }

/-- `Coin.update`: move left by `speed`; if the player holds a power-up and
the coin is within the 250px attraction radius, nudge it toward the player
by `(1 - distance/250) * 5` along the unit direction vector (the per-axis
displacement is divided by the Euclidean distance, computed by `Math.sqrt`
which is embedded as `sqrtQ`, with no zero guard); flag for deletion once
off screen; advance the 6-frame animation every 5 ticks. -/
def Coin.update (sqrtQ : ℚ → ℚ) (playerX playerY : ℚ) (hasPowerUp : Bool)
    (c : Coin) : Coin :=
  let x := c.x - c.speed
  let (x, y) :=
    if hasPowerUp then
      let attractionRange : ℚ := 250
      let distanceX := playerX - x
      let distanceY := playerY - c.y
      let distance := sqrtQ (distanceX * distanceX + distanceY * distanceY)
      if distance < attractionRange then
        let attractionForce := (1 - distance / attractionRange) * 5
        (x + distanceX / distance * attractionForce,
         c.y + distanceY / distance * attractionForce)
      else (x, c.y)
    else (x, c.y)
  let marked := if x + c.width < 0 then true else c.markedForDeletion
  let frameTimer := c.frameTimer + 1
  let (frameTimer, frameX) :=
    if frameTimer ≥ 5 then (0, (c.frameX + 1) % 6) else (frameTimer, c.frameX)
  { c with x := x, y := y, markedForDeletion := marked,
           frameTimer := frameTimer, frameX := frameX }

/-- State of an `Enemy` (file `js/enemy.js`): the tax-man that drifts left,
falls under gravity until grounded, and attacks when near the player. -/
structure Enemy where
  x : ℚ
  y : ℚ
  width : ℚ
  height : ℚ
  velocityX : ℚ
  velocityY : ℚ
  gravity : ℚ
  groundY : ℚ
  isAttacking : Bool
  attackTimer : ℕ
  attackCooldown : ℕ
  markedForDeletion : Bool
  frameX : ℕ
  frameY : ℕ
  frameTimer : ℕ
deriving DecidableEq

/-- The `Enemy` constructor: 32×48 box, leftward drift −3, gravity 0.6,
ground line at `game.canvas.height - this.height`. -/
def Enemy.new (ch x y : ℚ) : Enemy :=
  { x := x
    y := y
    width := 32
    height := 48
    velocityX := -3
    velocityY := 0
    gravity := 0.6
    groundY := ch - 48
    isAttacking := false
    attackTimer := 0
    attackCooldown := 0
    markedForDeletion := false
    frameX := 0
    frameY := 0
    frameTimer := 0 }

/-- `Enemy.attack`: start the attack sequence. -/
def Enemy.attack (e : Enemy) : Enemy :=
  { e with isAttacking := true, attackTimer := 0, frameX := 0, frameY := 1 }

/-- `Enemy.update`: drift left (at 80% rate while attacking); return early,
marked for deletion, once past the left edge with a 10px buffer; integrate
gravity until the ground line is reached; run the attack/cooldown state
machine; start an attack when off cooldown and the player is within the
proximity band (`player.x - this.x > -200`); advance the animation. -/
def Enemy.update (playerX : ℚ) (e : Enemy) : Enemy :=
  let x := if e.isAttacking then e.x + e.velocityX * 0.8 else e.x + e.velocityX
  if x + e.width < -10 then
    { e with x := x, markedForDeletion := true }
  else
    let (y, velocityY) :=
      if e.y < e.groundY then
        let vy := e.velocityY + e.gravity
        let y1 := e.y + vy
        if y1 ≥ e.groundY then (e.groundY, (0 : ℚ)) else (y1, vy)
      else (e.y, e.velocityY)
    let (isAttacking, attackTimer, attackCooldown) :=
      if e.isAttacking then
        let t := e.attackTimer + 1
        if t ≥ 120 then (false, 0, 180) else (true, t, e.attackCooldown)
      else if e.attackCooldown > 0 then (false, e.attackTimer, e.attackCooldown - 1)
      else (false, e.attackTimer, e.attackCooldown)
    let e1 := { e with x := x, y := y, velocityY := velocityY,
                       isAttacking := isAttacking, attackTimer := attackTimer,
                       attackCooldown := attackCooldown }
    let e2 :=
      if ¬e1.isAttacking ∧ e1.attackCooldown = 0 ∧ playerX - e1.x > -200 then
        e1.attack
      else e1
    let frameTimer := e2.frameTimer + 1
    if frameTimer ≥ 6 then { e2 with frameTimer := 0, frameX := (e2.frameX + 1) % 4 }
    else { e2 with frameTimer := frameTimer }

/-- `Enemy.collidesWith`: the rectangle overlap test against a duck-typed
object with `x`/`y`/`width`/`height`. -/
def Enemy.collidesWith (e : Enemy) (b : Box) : Bool :=
  Box.overlaps ⟨e.x, e.y, e.width, e.height⟩ b

/-- `Enemy.reset(x)` as invoked from `Game.checkEnemyCollisions` with
`x = canvas.width + 500` and `y` omitted: since `1300` is truthy the `||`
fallback keeps `x`, and the omitted `y` falls back to `this.groundY`. -/
def Enemy.reset (e : Enemy) (x : ℚ) : Enemy :=
  { e with x := x, y := e.groundY, isAttacking := false, attackTimer := 0,
           attackCooldown := 0, markedForDeletion := false }

/-- State of the `Player` (file `js/enemy.js`, second class): position,
jump physics, double-jump flags, attack state, power-up state and the
attack-invincibility timer. -/
structure Player where
  x : ℚ
  y : ℚ
  width : ℚ
  height : ℚ
  velocityY : ℚ
  gravity : ℚ
  jumpForce : ℚ
  groundY : ℚ
  isJumping : Bool
  canDoubleJump : Bool
  hasDoubleJumped : Bool
  isAlive : Bool
  hasPowerUp : Bool
  isSuperPowerUp : Bool
  powerUpTimer : ℕ
  powerUpDuration : ℕ
  isAttacking : Bool
  attackTimer : ℕ
  attackDuration : ℕ
  attackCooldown : ℕ
  attackCooldownDuration : ℕ
  attackRange : ℚ
  attackInvincibilityDuration : ℕ
  attackInvincibilityTimer : ℕ
  frameX : ℕ
  frameY : ℕ
  frameTimer : ℕ
deriving DecidableEq

/-- The `Player` constructor: 32×48 box, gravity 0.3, jump force −10,
ground line `game.canvas.height - this.height`, 600-tick power-up duration,
20-tick attacks with a 30-tick cooldown and 15 invincibility frames. -/
def Player.new (ch x y : ℚ) : Player :=
  { x := x
    y := y
    width := 32
    height := 48
    velocityY := 0
    gravity := 0.3
    jumpForce := -10
    groundY := ch - 48
    isJumping := false
    canDoubleJump := false
    hasDoubleJumped := false
    isAlive := true
    hasPowerUp := false
    isSuperPowerUp := false
    powerUpTimer := 0
    powerUpDuration := 600
    isAttacking := false
    attackTimer := 0
    attackDuration := 20
    attackCooldown := 0
    attackCooldownDuration := 30
    attackRange := 60
    attackInvincibilityDuration := 15
    attackInvincibilityTimer := 0
    frameX := 0
    frameY := 0
    frameTimer := 0 }

/-- `Player.isInvincible`: power-up active or attack-invincibility frames
remaining. -/
def Player.isInvincible (p : Player) : Bool :=
  p.hasPowerUp || decide (p.attackInvincibilityTimer > 0)

/-- `Player.jump`: ground jump at full force granting the double jump,
else the 0.8-force double jump consuming it, else — only with the super
power-up — an 0.7-force jump, else nothing. -/
def Player.jump (p : Player) : Player :=
  if ¬p.isJumping then
    { p with isJumping := true, velocityY := p.jumpForce, canDoubleJump := true }
  else if p.canDoubleJump ∧ ¬p.hasDoubleJumped then
    { p with velocityY := p.jumpForce * 0.8, hasDoubleJumped := true,
             canDoubleJump := false }
  else if p.isSuperPowerUp then
    { p with velocityY := p.jumpForce * 0.7 }
  else p

/-- `Player.attack`: start an attack unless already attacking or on
cooldown. -/
def Player.attack (p : Player) : Player :=
  if ¬p.isAttacking ∧ p.attackCooldown = 0 then
    { p with isAttacking := true, attackTimer := 0 }
  else p

/-- `Player.activatePowerUp`. -/
def Player.activatePowerUp (p : Player) (isSuper : Bool) : Player :=
  { p with hasPowerUp := true, isSuperPowerUp := isSuper, powerUpTimer := 0 }

/-- `Player.deactivatePowerUp`. -/
def Player.deactivatePowerUp (p : Player) : Player :=
  { p with hasPowerUp := false, isSuperPowerUp := false, powerUpTimer := 0 }

/-- `Player.update`: jump physics with landing reset of both jump flags;
attack duration/cooldown state machine (the invincibility timer is started
on the first tick of an attack, i.e. when the just-incremented
`attackTimer` equals 1); the attack-invincibility countdown; the power-up
countdown; the animation counters. -/
def Player.update (p : Player) : Player :=
  let p :=
    if p.isJumping then
      let y := p.y + p.velocityY
      let velocityY := p.velocityY + p.gravity
      if y ≥ p.groundY then
        { p with y := p.groundY, isJumping := false, velocityY := 0,
                 canDoubleJump := false, hasDoubleJumped := false }
      else { p with y := y, velocityY := velocityY }
    else p
  let p :=
    if p.isAttacking then
      let t := p.attackTimer + 1
      let p :=
        if t ≥ p.attackDuration then
          { p with isAttacking := false, attackTimer := 0,
                   attackCooldown := p.attackCooldownDuration }
        else { p with attackTimer := t }
      if p.attackTimer = 1 then
        { p with attackInvincibilityTimer := p.attackInvincibilityDuration }
      else p
    else if p.attackCooldown > 0 then { p with attackCooldown := p.attackCooldown - 1 }
    else p
  let p :=
    if p.attackInvincibilityTimer > 0 then
      { p with attackInvincibilityTimer := p.attackInvincibilityTimer - 1 }
    else p
  let p :=
    if p.hasPowerUp then
      let t := p.powerUpTimer + 1
      if t ≥ p.powerUpDuration then { p with powerUpTimer := t }.deactivatePowerUp
      else { p with powerUpTimer := t }
    else p
  let frameTimer := p.frameTimer + 1
  if frameTimer ≥ 10 then { p with frameTimer := 0, frameX := (p.frameX + 1) % 4 }
  else { p with frameTimer := frameTimer }

/-- The three duck-typed argument kinds of `Player.collidesWith`; the
JavaScript code dispatches on `object.constructor.name === "Coin"`. -/
inductive GameObject where
  | obstacle (o : Obstacle)
  | enemy (e : Enemy)
  | coin (c : Coin)

/-- `Player.collidesWith`: coins get a hitbox extended by 10px on every
side; obstacles and enemies get the strict rectangle overlap test. -/
def Player.collidesWith (p : Player) : GameObject → Bool
  | .coin c =>
      decide (p.x < c.x + c.width + 10) && decide (p.x + p.width + 10 > c.x) &&
      decide (p.y < c.y + c.height + 10) && decide (p.y + p.height + 10 > c.y)
  | .obstacle o => Box.overlaps ⟨p.x, p.y, p.width, p.height⟩ ⟨o.x, o.y, o.width, o.height⟩
  | .enemy e => Box.overlaps ⟨p.x, p.y, p.width, p.height⟩ ⟨e.x, e.y, e.width, e.height⟩

/-- State of the `PowerUpManager` (file `js/powerups.js`): the threshold
periods, the two one-shot availability flags, and the last score at which
thresholds were evaluated. -/
structure PowerUpManager where
  coinThreshold : ℕ
  superThreshold : ℕ
  isPowerUpAvailable : Bool
  isSuperPowerUpAvailable : Bool
  lastCheckedScore : ℕ
deriving DecidableEq

/-- The `PowerUpManager` constructor: periods 20 and 100, nothing
available, last-checked score 0. -/
def PowerUpManager.new : PowerUpManager :=
  { coinThreshold := 20
    superThreshold := 100
    isPowerUpAvailable := false
    isSuperPowerUpAvailable := false
    lastCheckedScore := 0 }

/-- `PowerUpManager.checkPowerUpAvailability(coinCount)`: no-op returning
`false` when the score is unchanged; otherwise compare
`floor(score/period)` before and after for both periods, record the score
as checked, and either (1) mark a super power-up available, clearing any
pending regular one, when a super threshold was crossed, or (2) mark a
regular power-up available when a regular threshold was crossed, the score
is not an exact super multiple, and the player (whose `hasPowerUp` the code
reads through `this.game.player`) holds no active power-up.  Returns the
updated manager and the boolean result. -/
def PowerUpManager.checkPowerUpAvailability (m : PowerUpManager)
    (playerHasPowerUp : Bool) (coinCount : ℕ) : PowerUpManager × Bool :=
  if coinCount = m.lastCheckedScore then (m, false)
  else
    let lastSuperThresholdPassed := m.lastCheckedScore / m.superThreshold
    let currentSuperThresholdPassed := coinCount / m.superThreshold
    let lastRegularThresholdPassed := m.lastCheckedScore / m.coinThreshold
    let currentRegularThresholdPassed := coinCount / m.coinThreshold
    let m := { m with lastCheckedScore := coinCount }
    if currentSuperThresholdPassed > lastSuperThresholdPassed then
      ({ m with isSuperPowerUpAvailable := true, isPowerUpAvailable := false }, true)
    else if currentRegularThresholdPassed > lastRegularThresholdPassed ∧
        coinCount % m.superThreshold ≠ 0 ∧ playerHasPowerUp = false then
      ({ m with isPowerUpAvailable := true }, true)
    else (m, false)

/-- `PowerUpManager.reset`: clear both availability flags (the DOM class
removals are I/O).  Note that `lastCheckedScore` is not touched. -/
def PowerUpManager.reset (m : PowerUpManager) : PowerUpManager :=
  { m with isPowerUpAvailable := false, isSuperPowerUpAvailable := false }

/-- State of the `SpawnManager` (the spawn-manager source file): the live
obstacle and coin pools, the two countdown timers and intervals, the base
speed, and the cached active-obstacle flag. -/
structure SpawnManager where
  obstacles : List Obstacle
  coins : List Coin
  obstacleTimer : ℕ
  coinTimer : ℕ
  obstacleInterval : ℕ
  coinInterval : ℕ
  baseSpeed : ℚ
  hasActiveObstacle : Bool

/-- The `SpawnManager` constructor: empty pools, zero timers, initial
intervals 100 and 80, base speed 5. -/
def SpawnManager.new : SpawnManager :=
  { obstacles := []
    coins := []
    obstacleTimer := 0
    coinTimer := 0
    obstacleInterval := 100
    coinInterval := 80
    baseSpeed := 5
    hasActiveObstacle := false }

/-- `SpawnManager.reset`: discard all obstacles and coins and restore the
timers and intervals to their initial values. -/
def SpawnManager.reset (sm : SpawnManager) : SpawnManager :=
  { sm with obstacles := [], coins := [], obstacleTimer := 0, coinTimer := 0,
            obstacleInterval := 100, coinInterval := 80,
            hasActiveObstacle := false }

/-- `SpawnManager.update`: compute the difficulty multiplier
`1 + floor(score/10) * 0.1` and the current speed; cache whether an
obstacle is live; advance the obstacle countdown only while no obstacle is
live, spawning one and resetting the interval to
`max(60, previousInterval - 1)` when it elapses; advance the coin countdown
every tick, spawning a coin (at 80% speed) and resetting its interval to
`max(40, previousInterval - 1)` when it elapses; then update every obstacle
and sweep the marked ones, and likewise for coins.  The `Math.random()`
draws consumed by the two possible constructor calls are `obstacleRoll` and
`coinRoll`; the player fields read through `this.game` are passed in. -/
def SpawnManager.update (sm : SpawnManager) (score : ℕ)
    (playerX playerY playerHeight : ℚ) (hasPowerUp : Bool) (sqrtQ : ℚ → ℚ)
    (obstacleRoll : ℚ × ℚ) (coinRoll : ℚ × ℚ × ℚ) : SpawnManager :=
  let difficultyMultiplier : ℚ := 1 + (score / 10 : ℕ) * 0.1
  let currentSpeed := sm.baseSpeed * difficultyMultiplier
  let hasActiveObstacle := decide (sm.obstacles.length > 0)
  let (obstacles, obstacleTimer, obstacleInterval) :=
    if ¬hasActiveObstacle then
      let t := sm.obstacleTimer + 1
      if t ≥ sm.obstacleInterval then
        (sm.obstacles ++
          [Obstacle.new canvasWidth canvasHeight currentSpeed obstacleRoll.1 obstacleRoll.2],
         0, max 60 (sm.obstacleInterval - 1))
      else (sm.obstacles, t, sm.obstacleInterval)
    else (sm.obstacles, sm.obstacleTimer, sm.obstacleInterval)
  let (coins, coinTimer, coinInterval) :=
    let t := sm.coinTimer + 1
    if t ≥ sm.coinInterval then
      (sm.coins ++
        [Coin.new canvasWidth canvasHeight playerY playerHeight (currentSpeed * 0.8)
          coinRoll.1 coinRoll.2.1 coinRoll.2.2],
       0, max 40 (sm.coinInterval - 1))
    else (sm.coins, t, sm.coinInterval)
  let obstacles := (obstacles.map Obstacle.update).filter (fun o => !o.markedForDeletion)
  let coins := ((coins.map (Coin.update sqrtQ playerX playerY hasPowerUp)).filter
    (fun c => !c.markedForDeletion))
  { sm with obstacles := obstacles, coins := coins,
            obstacleTimer := obstacleTimer, coinTimer := coinTimer,
            obstacleInterval := obstacleInterval, coinInterval := coinInterval,
            hasActiveObstacle := hasActiveObstacle }

/-- The `Math.random()` draws a single pass of the game loop can consume:
two for a possible obstacle spawn, three for a possible coin spawn, and one
for each of the two possible `spawnEnemy` calls inside `Game.update`. -/
structure TickRand where
  obstacleRoll : ℚ × ℚ
  coinRoll : ℚ × ℚ × ℚ
  enemyRollA : ℚ
  enemyRollB : ℚ

/-- State of the `Game` (the main game source file): run/game-over flags,
the score ledger, the player, the two managers and the enemy pool.  The
canvas, background scrolling, FPS bookkeeping and DOM/UI references are
I/O and not modelled. -/
structure Game where
  isRunning : Bool
  gameOver : Bool
  score : ℕ
  highScore : ℕ
  player : Player
  spawnManager : SpawnManager
  powerUpManager : PowerUpManager
  enemies : List Enemy

/-- `Game.addScore`: add the points and raise the persisted best score
whenever the running total exceeds it. -/
def Game.addScore (g : Game) (points : ℕ) : Game :=
  let score := g.score + points
  { g with score := score,
           highScore := if score > g.highScore then score else g.highScore }

/-- `Game.spawnEnemy`: pick `x = canvas.width + 500 + Math.random() * 300`;
if no live obstacle lies within 350px of it horizontally, append a new
enemy (grounded at `canvas.height - 48`) and return `true`; otherwise leave
the state unchanged and return `false`, which models the
`setTimeout(() => this.spawnEnemy(), 1000)` retry being scheduled — the
candidate is deferred, never dropped. -/
def Game.spawnEnemy (g : Game) (r : ℚ) : Game × Bool :=
  let minSpawnDistance : ℚ := 500
  let x := canvasWidth + minSpawnDistance + r * 300
  let noObstaclesNearby := !(g.spawnManager.obstacles.any (fun o => decide (|o.x - x| < 350)))
  if noObstaclesNearby then
    ({ g with enemies := g.enemies ++ [Enemy.new canvasHeight x (canvasHeight - 48)] }, true)
  else (g, false)

/-- `Game.endGame`: set the terminal game-over flag (the final-score DOM
update and the game-over screen are I/O). -/
def Game.endGame (g : Game) : Game :=
  { g with gameOver := true }

/-- The loop body of `Game.checkObstacleCollisions`: walk the obstacle
list; on an overlap with an invincible player, flag the obstacle for
removal and award `2` points if inside attack-invincibility frames without
a power-up, else `1` (`createAttackEffect` is a no-op); on an overlap with
a vulnerable player, end the game and `break`.  Returns the walked list,
the point awards in order, and whether the game was ended. -/
def obstacleCollisionsGo (p : Player) : List Obstacle → List Obstacle × List ℕ × Bool
  | [] => ([], [], false)
  | o :: rest =>
    if p.collidesWith (.obstacle o) then
      if p.isInvincible then
        let pointValue := if p.attackInvincibilityTimer > 0 ∧ ¬p.hasPowerUp then 2 else 1
        let r := obstacleCollisionsGo p rest
        ({ o with markedForDeletion := true } :: r.1, pointValue :: r.2.1, r.2.2)
      else (o :: rest, [], true)
    else
      let r := obstacleCollisionsGo p rest
      (o :: r.1, r.2.1, r.2.2)

/-- `Game.checkObstacleCollisions`: run the obstacle loop, apply each
`addScore` in order, and apply `endGame` if a vulnerable overlap was
found. -/
def Game.checkObstacleCollisions (g : Game) : Game :=
  let r := obstacleCollisionsGo g.player g.spawnManager.obstacles
  let g1 := { g with spawnManager := { g.spawnManager with obstacles := r.1 } }
  let g2 := r.2.1.foldl Game.addScore g1
  if r.2.2 then g2.endGame else g2

/-- The loop body of `Game.checkEnemyCollisions`: walk the enemy list; on
an overlap with an invincible player, respawn the enemy far to the right
(`reset(canvas.width + 500)`) and award `5` points if inside
attack-invincibility frames without a power-up, else `2`; on an overlap
with a vulnerable player, end the game and `break`. -/
def enemyCollisionsGo (p : Player) : List Enemy → List Enemy × List ℕ × Bool
  | [] => ([], [], false)
  | e :: rest =>
    if p.collidesWith (.enemy e) then
      if p.isInvincible then
        let pointValue := if p.attackInvincibilityTimer > 0 ∧ ¬p.hasPowerUp then 5 else 2
        let r := enemyCollisionsGo p rest
        (e.reset (canvasWidth + 500) :: r.1, pointValue :: r.2.1, r.2.2)
      else (e :: rest, [], true)
    else
      let r := enemyCollisionsGo p rest
      (e :: r.1, r.2.1, r.2.2)

/-- `Game.checkEnemyCollisions`. -/
def Game.checkEnemyCollisions (g : Game) : Game :=
  let r := enemyCollisionsGo g.player g.enemies
  let g1 := { g with enemies := r.1 }
  let g2 := r.2.1.foldl Game.addScore g1
  if r.2.2 then g2.endGame else g2

/-- The loop body of `Game.checkCoinCollisions`: every overlapping coin
(extended hitbox) is flagged for removal and awards its value; this loop
has no `break`. -/
def coinCollisionsGo (p : Player) : List Coin → List Coin × List ℕ
  | [] => ([], [])
  | c :: rest =>
    let r := coinCollisionsGo p rest
    if p.collidesWith (.coin c) then
      ({ c with markedForDeletion := true } :: r.1, c.value :: r.2)
    else (c :: r.1, r.2)

/-- `Game.checkCoinCollisions`. -/
def Game.checkCoinCollisions (g : Game) : Game :=
  let r := coinCollisionsGo g.player g.spawnManager.coins
  let g1 := { g with spawnManager := { g.spawnManager with coins := r.1 } }
  r.2.foldl Game.addScore g1

/-- `Game.checkCollisions`: obstacles, then enemies, then coins. -/
def Game.checkCollisions (g : Game) : Game :=
  g.checkObstacleCollisions.checkEnemyCollisions.checkCoinCollisions

/-- Instrumentation: how many times the obstacle loop of
`Game.checkCollisions` evaluates `player.collidesWith` — the loop stops
early exactly when it finds an overlap with a vulnerable player.  The loop
never changes the player, so this count is a function of the player and
the walked list alone. -/
def obstacleChecksCount (p : Player) : List Obstacle → ℕ
  | [] => 0
  | o :: rest =>
    1 + (if p.collidesWith (.obstacle o) ∧ ¬p.isInvincible then 0
         else obstacleChecksCount p rest)

/-- Instrumentation: how many times the enemy loop of
`Game.checkCollisions` evaluates `player.collidesWith`.  The enemy loop
runs unconditionally after the obstacle loop (even when the obstacle loop
has already ended the game), on an enemy pool the obstacle loop does not
touch. -/
def enemyChecksCount (p : Player) : List Enemy → ℕ
  | [] => 0
  | e :: rest =>
    1 + (if p.collidesWith (.enemy e) ∧ ¬p.isInvincible then 0
         else enemyChecksCount p rest)

/-- `Game.update`, up to but not including its final guarantee that at
least one enemy is live: update the player, the spawn manager and every
enemy; spawn an extra enemy when the score is a positive multiple of 200
and fewer than 3 enemies are live; then sweep the enemies marked for
deletion. -/
def Game.updateCore (g : Game) (tr : TickRand) (sqrtQ : ℚ → ℚ) : Game :=
  let player := g.player.update
  let spawnManager := g.spawnManager.update g.score player.x player.y player.height
    player.hasPowerUp sqrtQ tr.obstacleRoll tr.coinRoll
  let enemies := g.enemies.map (Enemy.update player.x)
  let g1 := { g with player := player, spawnManager := spawnManager, enemies := enemies }
  let g2 :=
    if g1.score > 0 ∧ g1.score % 200 = 0 ∧ g1.enemies.length < 3 then
      (g1.spawnEnemy tr.enemyRollA).1
    else g1
  { g2 with enemies := g2.enemies.filter (fun e => !e.markedForDeletion) }

/-- `Game.update`: the core pass above, followed by the final check that
spawns one enemy whenever the live enemy count has reached zero. -/
def Game.update (g : Game) (tr : TickRand) (sqrtQ : ℚ → ℚ) : Game :=
  let g3 := g.updateCore tr sqrtQ
  if g3.enemies.length = 0 then (g3.spawnEnemy tr.enemyRollB).1 else g3

/-- `PowerUpManager.activatePowerUp`, lifted to the game state it mutates
through `this.game.player`: a super activation takes precedence over a
regular one and each consumes its availability flag
(`showPowerUpActivation` is I/O). -/
def Game.activatePowerUp (g : Game) : Game × Bool :=
  if g.powerUpManager.isSuperPowerUpAvailable then
    ({ g with player := g.player.activatePowerUp true,
              powerUpManager :=
                { g.powerUpManager with isSuperPowerUpAvailable := false } }, true)
  else if g.powerUpManager.isPowerUpAvailable then
    ({ g with player := g.player.activatePowerUp false,
              powerUpManager :=
                { g.powerUpManager with isPowerUpAvailable := false } }, true)
  else (g, false)

/-- One pass of the `Game.gameLoop` body, minus rendering and FPS
bookkeeping: while running and not game over, update, check collisions,
then evaluate the power-up thresholds on the new score and activate a
power-up if one became available. -/
def Game.tick (g : Game) (tr : TickRand) (sqrtQ : ℚ → ℚ) : Game :=
  if g.isRunning ∧ ¬g.gameOver then
    let g1 := (g.update tr sqrtQ).checkCollisions
    let r := g1.powerUpManager.checkPowerUpAvailability g1.player.hasPowerUp g1.score
    let g2 := { g1 with powerUpManager := r.1 }
    if r.2 then (g2.activatePowerUp).1 else g2
  else g

/-- The `Game` constructor, restricted to simulation state: zero score, a
persisted best score read from storage (passed in), a fresh player at
`(80, canvas.height - 48)`, fresh managers, and one pre-spawned enemy
(`r` is the `Math.random()` draw of that `spawnEnemy` call). -/
def Game.new (highScore : ℕ) (r : ℚ) : Game :=
  let base : Game :=
    { isRunning := false
      gameOver := false
      score := 0
      highScore := highScore
      player := Player.new canvasHeight 80 (canvasHeight - 48)
      spawnManager := SpawnManager.new
      powerUpManager := PowerUpManager.new
      enemies := [] }
  (base.spawnEnemy r).1

/-- `Game.start`: begin running if not already. -/
def Game.start (g : Game) : Game :=
  if ¬g.isRunning then { g with isRunning := true, gameOver := false } else g

/-- `Game.restart`: reset the score, recreate the player, reset both
managers, discard all enemies and pre-spawn one, then mark the game
running. -/
def Game.restart (g : Game) (r : ℚ) : Game :=
  let g1 := { g with
    score := 0
    player := Player.new canvasHeight 80 (canvasHeight - 48)
    spawnManager := g.spawnManager.reset
    powerUpManager := g.powerUpManager.reset
    enemies := [] }
  let g2 := (g1.spawnEnemy r).1
  { g2 with isRunning := true, gameOver := false }

/-- The keyboard/touch jump intent: the input handler calls `player.jump()`
only while the game is running. -/
def Game.jumpIntent (g : Game) : Game :=
  if g.isRunning then { g with player := g.player.jump } else g

/-- The keyboard/touch attack intent: the input handler calls
`player.attack()` only while the game is running. -/
def Game.attackIntent (g : Game) : Game :=
  if g.isRunning then { g with player := g.player.attack } else g

/-- C1: for every pair of scores with `coinCount` different from the
last-checked score, `checkPowerUpAvailability` marks a super power-up
available exactly when `floor(score/100)` increased, clearing any pending
regular availability; otherwise it marks a regular power-up available
exactly when `floor(score/20)` increased, the score is not an exact
multiple of 100 and the player holds no active power-up; when the score is
unchanged the check is a no-op.  The outcome depends only on the truth of
the two floor comparisons, so several periods skipped in one jump register
as exactly one crossing event. -/
theorem checkPowerUpAvailability_spec (m : PowerUpManager) (hasPU : Bool) (s : ℕ)
    (hc : m.coinThreshold = 20) (hs : m.superThreshold = 100) :
    (s = m.lastCheckedScore → m.checkPowerUpAvailability hasPU s = (m, false)) ∧
    (s ≠ m.lastCheckedScore →
      m.checkPowerUpAvailability hasPU s =
        if s / 100 > m.lastCheckedScore / 100 then
          ({ m with lastCheckedScore := s, isSuperPowerUpAvailable := true,
                    isPowerUpAvailable := false }, true)
        else if s / 20 > m.lastCheckedScore / 20 ∧ s % 100 ≠ 0 ∧ hasPU = false then
          ({ m with lastCheckedScore := s, isPowerUpAvailable := true }, true)
        else ({ m with lastCheckedScore := s }, false)) := by
  constructor
  · intro h
    simp [PowerUpManager.checkPowerUpAvailability, h]
  · intro h
    simp only [PowerUpManager.checkPowerUpAvailability, h, if_false, hc, hs, ite_false]

/-- C1 witness: crossing from 0 to 20 with no active power-up marks a
regular power-up available. -/
theorem checkPowerUpAvailability_spec_w :
    PowerUpManager.new.checkPowerUpAvailability false 20 =
      ({ PowerUpManager.new with lastCheckedScore := 20, isPowerUpAvailable := true },
        true) := by
  have h := (checkPowerUpAvailability_spec PowerUpManager.new false 20 rfl rfl).2
    (by decide)
  rw [h]
  decide

/-- C7: a jump call on a grounded player launches at the base jump
velocity and grants the double jump; on an airborne player with the double
jump granted and unused it sets the weaker (0.8×) velocity and consumes
the double jump; a further call while airborne with the double jump spent
and no super power-up does nothing; with the super power-up active, the
even weaker (0.7×) jump is permitted as a fallback after the ground and
double-jump checks fail. -/
theorem Player.jump_spec (p : Player) :
    (p.isJumping = false →
      p.jump = { p with isJumping := true, velocityY := p.jumpForce,
                        canDoubleJump := true }) ∧
    (p.isJumping = true → p.canDoubleJump = true → p.hasDoubleJumped = false →
      p.jump = { p with velocityY := p.jumpForce * 0.8, hasDoubleJumped := true,
                        canDoubleJump := false }) ∧
    (p.isJumping = true → (p.canDoubleJump = false ∨ p.hasDoubleJumped = true) →
      p.isSuperPowerUp = false → p.jump = p) ∧
    (p.isJumping = true → (p.canDoubleJump = false ∨ p.hasDoubleJumped = true) →
      p.isSuperPowerUp = true → p.jump = { p with velocityY := p.jumpForce * 0.7 }) := by
  refine ⟨?_, ?_, ?_, ?_⟩
  · intro h
    simp [Player.jump, h]
  · intro h1 h2 h3
    simp [Player.jump, h1, h2, h3]
  · intro h1 h2 h3
    rcases h2 with h2 | h2 <;> simp [Player.jump, h1, h2, h3]
  · intro h1 h2 h3
    rcases h2 with h2 | h2 <;> simp [Player.jump, h1, h2, h3]

/-- C7 witness: from a fresh grounded player, the first jump launches at
−10 and grants the double jump, the second jump while airborne sets −8 and
consumes it, and a third jump call (no super power-up) does nothing. -/
theorem Player.jump_spec_w :
    (Player.new 400 80 352).jump =
      { Player.new 400 80 352 with isJumping := true, velocityY := -10,
                                   canDoubleJump := true } ∧
    (Player.new 400 80 352).jump.jump =
      { (Player.new 400 80 352).jump with velocityY := -8, hasDoubleJumped := true,
                                          canDoubleJump := false } ∧
    (Player.new 400 80 352).jump.jump.jump = (Player.new 400 80 352).jump.jump := by
  refine ⟨?_, ?_, ?_⟩
  · have h := (Player.jump_spec (Player.new 400 80 352)).1 (by decide)
    rw [h]
    simp only [Player.new]
  · have h := (Player.jump_spec (Player.new 400 80 352).jump).2.1 (by decide) (by decide)
      (by decide)
    rw [h]
    simp only [Player.jump, Player.new]
    norm_num
  · exact (Player.jump_spec (Player.new 400 80 352).jump.jump).2.2.1 (by decide)
      (Or.inl (by decide)) (by decide)

/-- C9: the axis-aligned rectangle overlap test used for obstacles and
enemies is symmetric in its two rectangles, and its four strict
inequalities make rectangles that merely touch along an edge count as not
overlapping; `Enemy.collidesWith` and the obstacle/enemy branches of
`Player.collidesWith` are exactly this test. -/
theorem Box.overlaps_spec :
    (∀ a b : Box, Box.overlaps a b = Box.overlaps b a) ∧
    (∀ a b : Box,
      (a.x + a.width = b.x ∨ b.x + b.width = a.x ∨
       a.y + a.height = b.y ∨ b.y + b.height = a.y) → Box.overlaps a b = false) ∧
    (∀ (e : Enemy) (b : Box),
      e.collidesWith b = Box.overlaps ⟨e.x, e.y, e.width, e.height⟩ b) ∧
    (∀ (p : Player) (e : Enemy),
      p.collidesWith (.enemy e) =
        Box.overlaps ⟨p.x, p.y, p.width, p.height⟩ ⟨e.x, e.y, e.width, e.height⟩) ∧
    (∀ (p : Player) (o : Obstacle),
      p.collidesWith (.obstacle o) =
        Box.overlaps ⟨p.x, p.y, p.width, p.height⟩ ⟨o.x, o.y, o.width, o.height⟩) := by
  refine ⟨?_, ?_, fun e b => rfl, fun p e => rfl, fun p o => rfl⟩
  · intro a b
    rw [Bool.eq_iff_iff]
    simp only [Box.overlaps, Bool.and_eq_true, decide_eq_true_eq, gt_iff_lt]
    constructor
    · rintro ⟨⟨⟨h1, h2⟩, h3⟩, h4⟩
      exact ⟨⟨⟨h2, h1⟩, h4⟩, h3⟩
    · rintro ⟨⟨⟨h1, h2⟩, h3⟩, h4⟩
      exact ⟨⟨⟨h2, h1⟩, h4⟩, h3⟩
  · intro a b h
    rcases h with h | h | h | h <;> simp [Box.overlaps, h]

/-- C9 witness: symmetry at two concrete overlapping rectangles, and a
concrete pair of rectangles touching along a vertical edge that does not
count as overlapping. -/
theorem Box.overlaps_spec_w :
    Box.overlaps ⟨0, 0, 10, 10⟩ ⟨5, 5, 20, 20⟩ =
      Box.overlaps ⟨5, 5, 20, 20⟩ ⟨0, 0, 10, 10⟩ ∧
    Box.overlaps ⟨0, 0, 10, 10⟩ ⟨10, 0, 10, 10⟩ = false := by
  refine ⟨Box.overlaps_spec.1 _ _, Box.overlaps_spec.2.1 _ _ (Or.inl ?_)⟩
  norm_num

/-- C3 (amended): a restart discards all live obstacles, coins and
enemies (pre-spawning one fresh enemy), resets the score to 0, the spawn
timers and intervals to their initial values (100 and 80), both power-up
availability flags to false, and recreates the player — but the Threshold
Tracker's last-checked score is left unchanged (`PowerUpManager.reset`
does not touch `lastCheckedScore`). -/
theorem Game.restart_spec (g : Game) (r : ℚ) :
    (g.restart r).score = 0 ∧
    (g.restart r).spawnManager.obstacles = [] ∧
    (g.restart r).spawnManager.coins = [] ∧
    (g.restart r).spawnManager.obstacleTimer = 0 ∧
    (g.restart r).spawnManager.coinTimer = 0 ∧
    (g.restart r).spawnManager.obstacleInterval = 100 ∧
    (g.restart r).spawnManager.coinInterval = 80 ∧
    (g.restart r).powerUpManager.isPowerUpAvailable = false ∧
    (g.restart r).powerUpManager.isSuperPowerUpAvailable = false ∧
    (g.restart r).player = Player.new canvasHeight 80 (canvasHeight - 48) ∧
    (g.restart r).enemies =
      [Enemy.new canvasHeight (canvasWidth + 500 + r * 300) (canvasHeight - 48)] ∧
    (g.restart r).isRunning = true ∧
    (g.restart r).gameOver = false ∧
    (g.restart r).powerUpManager.lastCheckedScore =
      g.powerUpManager.lastCheckedScore := by
  simp [Game.restart, Game.spawnEnemy, SpawnManager.reset, PowerUpManager.reset]

/-- C3 counterexample: the claim as stated says a restart resets the
Threshold Tracker's last-checked score to its initial value (0, as set by
the `PowerUpManager` constructor); on a game state whose tracker last
checked score 37, the restarted game still carries 37. -/
theorem Game.restart_lastCheckedScore_cex :
    (({ Game.new 0 0 with
        powerUpManager :=
          { PowerUpManager.new with lastCheckedScore := 37 } } : Game).restart 0
      ).powerUpManager.lastCheckedScore = 37 ∧
    PowerUpManager.new.lastCheckedScore = 0 := by
  constructor
  · simp [Game.restart, Game.spawnEnemy, Game.new, PowerUpManager.reset,
      SpawnManager.reset, SpawnManager.new]
  · rfl

lemma foldlAddScore_player (l : List ℕ) : ∀ g : Game, (l.foldl Game.addScore g).player = g.player := by
  induction l with
  | nil => intro g; rfl
  | cons n t ih => intro g; simp [List.foldl_cons, ih, Game.addScore]

lemma foldlAddScore_gameOver (l : List ℕ) : ∀ g : Game, (l.foldl Game.addScore g).gameOver = g.gameOver := by
  induction l with
  | nil => intro g; rfl
  | cons n t ih => intro g; simp [List.foldl_cons, ih, Game.addScore]

lemma foldlAddScore_isRunning (l : List ℕ) : ∀ g : Game, (l.foldl Game.addScore g).isRunning = g.isRunning := by
  induction l with
  | nil => intro g; rfl
  | cons n t ih => intro g; simp [List.foldl_cons, ih, Game.addScore]

lemma foldlAddScore_enemies (l : List ℕ) : ∀ g : Game, (l.foldl Game.addScore g).enemies = g.enemies := by
  induction l with
  | nil => intro g; rfl
  | cons n t ih => intro g; simp [List.foldl_cons, ih, Game.addScore]

lemma foldlAddScore_spawnManager (l : List ℕ) :
    ∀ g : Game, (l.foldl Game.addScore g).spawnManager = g.spawnManager := by
  induction l with
  | nil => intro g; rfl
  | cons n t ih => intro g; simp [List.foldl_cons, ih, Game.addScore]

lemma foldlAddScore_powerUpManager (l : List ℕ) :
    ∀ g : Game, (l.foldl Game.addScore g).powerUpManager = g.powerUpManager := by
  induction l with
  | nil => intro g; rfl
  | cons n t ih => intro g; simp [List.foldl_cons, ih, Game.addScore]

lemma foldlAddScore_score (l : List ℕ) :
    ∀ g : Game, (l.foldl Game.addScore g).score = g.score + l.sum := by
  induction l with
  | nil => intro g; simp
  | cons n t ih => intro g; simp [List.foldl_cons, ih, Game.addScore, Nat.add_assoc]

lemma checkObstacleCollisions_fields (g : Game) :
    (g.checkObstacleCollisions).player = g.player ∧
    (g.checkObstacleCollisions).enemies = g.enemies ∧
    (g.checkObstacleCollisions).isRunning = g.isRunning ∧
    (g.checkObstacleCollisions).powerUpManager = g.powerUpManager ∧
    (g.checkObstacleCollisions).spawnManager.obstacles =
      (obstacleCollisionsGo g.player g.spawnManager.obstacles).1 ∧
    (g.checkObstacleCollisions).spawnManager.coins = g.spawnManager.coins ∧
    (g.checkObstacleCollisions).spawnManager.obstacleTimer = g.spawnManager.obstacleTimer ∧
    (g.checkObstacleCollisions).spawnManager.coinTimer = g.spawnManager.coinTimer ∧
    (g.checkObstacleCollisions).spawnManager.obstacleInterval = g.spawnManager.obstacleInterval ∧
    (g.checkObstacleCollisions).spawnManager.coinInterval = g.spawnManager.coinInterval ∧
    (g.checkObstacleCollisions).spawnManager.baseSpeed = g.spawnManager.baseSpeed ∧
    (g.checkObstacleCollisions).score =
      g.score + (obstacleCollisionsGo g.player g.spawnManager.obstacles).2.1.sum ∧
    (g.checkObstacleCollisions).gameOver =
      (g.gameOver || (obstacleCollisionsGo g.player g.spawnManager.obstacles).2.2) := by
  unfold Game.checkObstacleCollisions
  by_cases h : (obstacleCollisionsGo g.player g.spawnManager.obstacles).2.2 <;>
    simp [h, Game.endGame, foldlAddScore_player, foldlAddScore_gameOver,
      foldlAddScore_enemies, foldlAddScore_isRunning, foldlAddScore_spawnManager,
      foldlAddScore_powerUpManager, foldlAddScore_score]

lemma checkEnemyCollisions_fields (g : Game) :
    (g.checkEnemyCollisions).player = g.player ∧
    (g.checkEnemyCollisions).spawnManager = g.spawnManager ∧
    (g.checkEnemyCollisions).isRunning = g.isRunning ∧
    (g.checkEnemyCollisions).powerUpManager = g.powerUpManager ∧
    (g.checkEnemyCollisions).enemies = (enemyCollisionsGo g.player g.enemies).1 ∧
    (g.checkEnemyCollisions).score =
      g.score + (enemyCollisionsGo g.player g.enemies).2.1.sum ∧
    (g.checkEnemyCollisions).gameOver =
      (g.gameOver || (enemyCollisionsGo g.player g.enemies).2.2) := by
  unfold Game.checkEnemyCollisions
  by_cases h : (enemyCollisionsGo g.player g.enemies).2.2 <;>
    simp [h, Game.endGame, foldlAddScore_player, foldlAddScore_gameOver,
      foldlAddScore_enemies, foldlAddScore_isRunning, foldlAddScore_spawnManager,
      foldlAddScore_powerUpManager, foldlAddScore_score]

lemma checkCoinCollisions_fields (g : Game) :
    (g.checkCoinCollisions).player = g.player ∧
    (g.checkCoinCollisions).enemies = g.enemies ∧
    (g.checkCoinCollisions).isRunning = g.isRunning ∧
    (g.checkCoinCollisions).powerUpManager = g.powerUpManager ∧
    (g.checkCoinCollisions).spawnManager.obstacles = g.spawnManager.obstacles ∧
    (g.checkCoinCollisions).spawnManager.coins =
      (coinCollisionsGo g.player g.spawnManager.coins).1 ∧
    (g.checkCoinCollisions).spawnManager.obstacleTimer = g.spawnManager.obstacleTimer ∧
    (g.checkCoinCollisions).spawnManager.coinTimer = g.spawnManager.coinTimer ∧
    (g.checkCoinCollisions).spawnManager.obstacleInterval = g.spawnManager.obstacleInterval ∧
    (g.checkCoinCollisions).spawnManager.coinInterval = g.spawnManager.coinInterval ∧
    (g.checkCoinCollisions).spawnManager.baseSpeed = g.spawnManager.baseSpeed ∧
    (g.checkCoinCollisions).score =
      g.score + (coinCollisionsGo g.player g.spawnManager.coins).2.sum ∧
    (g.checkCoinCollisions).gameOver = g.gameOver := by
  unfold Game.checkCoinCollisions
  simp [foldlAddScore_player, foldlAddScore_gameOver, foldlAddScore_enemies,
    foldlAddScore_isRunning, foldlAddScore_spawnManager,
    foldlAddScore_powerUpManager, foldlAddScore_score]

lemma obstacleCollisionsGo_invincible (p : Player) (hp : p.isInvincible = true)
    (l : List Obstacle) :
    obstacleCollisionsGo p l =
      (l.map fun o =>
          if p.collidesWith (.obstacle o) then { o with markedForDeletion := true } else o,
        List.replicate (l.countP fun o => p.collidesWith (.obstacle o))
          (if p.attackInvincibilityTimer > 0 ∧ ¬p.hasPowerUp then 2 else 1),
        false) := by
  induction l with
  | nil => simp [obstacleCollisionsGo]
  | cons o t ih =>
    by_cases hc : p.collidesWith (.obstacle o) <;>
      simp [obstacleCollisionsGo, hp, hc, ih, List.countP_cons, List.replicate_succ]

lemma enemyCollisionsGo_invincible (p : Player) (hp : p.isInvincible = true)
    (l : List Enemy) :
    enemyCollisionsGo p l =
      (l.map fun e =>
          if p.collidesWith (.enemy e) then e.reset (canvasWidth + 500) else e,
        List.replicate (l.countP fun e => p.collidesWith (.enemy e))
          (if p.attackInvincibilityTimer > 0 ∧ ¬p.hasPowerUp then 5 else 2),
        false) := by
  induction l with
  | nil => simp [enemyCollisionsGo]
  | cons e t ih =>
    by_cases hc : p.collidesWith (.enemy e) <;>
      simp [enemyCollisionsGo, hp, hc, ih, List.countP_cons, List.replicate_succ]

lemma obstacleCollisionsGo_vulnerable (p : Player) (hp : p.isInvincible = false)
    (l : List Obstacle) :
    obstacleCollisionsGo p l =
      (l, [], l.any fun o => p.collidesWith (.obstacle o)) := by
  induction l with
  | nil => simp [obstacleCollisionsGo]
  | cons o t ih =>
    by_cases hc : p.collidesWith (.obstacle o) <;>
      simp [obstacleCollisionsGo, hp, hc, ih]

lemma enemyCollisionsGo_vulnerable (p : Player) (hp : p.isInvincible = false)
    (l : List Enemy) :
    enemyCollisionsGo p l = (l, [], l.any fun e => p.collidesWith (.enemy e)) := by
  induction l with
  | nil => simp [enemyCollisionsGo]
  | cons e t ih =>
    by_cases hc : p.collidesWith (.enemy e) <;>
      simp [enemyCollisionsGo, hp, hc, ih]

/-- C6: when the Actor is invincible, every overlapping obstacle is
flagged for removal (destroyed) while every overlapping enemy is reset far
to the right (`x = canvas.width + 500 = 1300`, unmarked — the pool size is
preserved, enemies are reset, not removed); neither loop can end the game;
the score increases by 2 per obstacle and 5 per enemy when the Actor is in
attack-invincibility frames without a power-up, versus 1 per obstacle and
2 per enemy when the invincibility comes from a power-up (the power-up
values apply whenever `hasPowerUp` is set, even if attack frames are also
active). -/
theorem invincible_collision_spec (g : Game) (hInv : g.player.isInvincible = true) :
    (g.checkObstacleCollisions).spawnManager.obstacles =
      (g.spawnManager.obstacles.map fun o =>
        if g.player.collidesWith (.obstacle o) then { o with markedForDeletion := true }
        else o) ∧
    (g.checkObstacleCollisions).gameOver = g.gameOver ∧
    (g.checkObstacleCollisions).score =
      g.score +
        (g.spawnManager.obstacles.countP fun o => g.player.collidesWith (.obstacle o)) *
          (if g.player.attackInvincibilityTimer > 0 ∧ ¬g.player.hasPowerUp then 2 else 1) ∧
    (g.checkEnemyCollisions).enemies =
      (g.enemies.map fun e =>
        if g.player.collidesWith (.enemy e) then e.reset (canvasWidth + 500) else e) ∧
    (g.checkEnemyCollisions).enemies.length = g.enemies.length ∧
    (g.checkEnemyCollisions).gameOver = g.gameOver ∧
    (g.checkEnemyCollisions).score =
      g.score +
        (g.enemies.countP fun e => g.player.collidesWith (.enemy e)) *
          (if g.player.attackInvincibilityTimer > 0 ∧ ¬g.player.hasPowerUp then 5 else 2) ∧
    (∀ e : Enemy, (e.reset (canvasWidth + 500)).x = 1300 ∧
      (e.reset (canvasWidth + 500)).markedForDeletion = false) ∧
    (g.player.hasPowerUp = false →
      0 < g.player.attackInvincibilityTimer ∧
      (if g.player.attackInvincibilityTimer > 0 ∧ ¬g.player.hasPowerUp then (2 : ℕ)
       else 1) = 2 ∧
      (if g.player.attackInvincibilityTimer > 0 ∧ ¬g.player.hasPowerUp then (5 : ℕ)
       else 2) = 5) ∧
    (g.player.hasPowerUp = true →
      (if g.player.attackInvincibilityTimer > 0 ∧ ¬g.player.hasPowerUp then (2 : ℕ)
       else 1) = 1 ∧
      (if g.player.attackInvincibilityTimer > 0 ∧ ¬g.player.hasPowerUp then (5 : ℕ)
       else 2) = 2) := by
  obtain ⟨_, _, _, _, hobsO, _, _, _, _, _, _, hscO, hgovO⟩ :=
    checkObstacleCollisions_fields g
  obtain ⟨_, _, _, _, henE, hscE, hgovE⟩ := checkEnemyCollisions_fields g
  have hgo := obstacleCollisionsGo_invincible g.player hInv g.spawnManager.obstacles
  have hge := enemyCollisionsGo_invincible g.player hInv g.enemies
  refine ⟨?_, ?_, ?_, ?_, ?_, ?_, ?_, ?_, ?_, ?_⟩
  · rw [hobsO, hgo]
  · rw [hgovO, hgo]
    simp
  · rw [hscO, hgo]
    simp [List.sum_replicate, smul_eq_mul]
  · rw [henE, hge]
  · rw [henE, hge]
    simp
  · rw [hgovE, hge]
    simp
  · rw [hscE, hge]
    simp [List.sum_replicate, smul_eq_mul]
  · intro e
    constructor
    · simp [Enemy.reset, canvasWidth]
      norm_num
    · rfl
  · intro h
    have ht : 0 < g.player.attackInvincibilityTimer := by
      simp [Player.isInvincible, h] at hInv
      exact hInv
    refine ⟨ht, by simp [h, ht], by simp [h, ht]⟩
  · intro h
    exact ⟨by simp [h], by simp [h]⟩

/-- Concrete state for the C6 witness: an attack-invincible player (5
invincibility frames, no power-up) overlapping one obstacle and one
enemy. -/
def playerC6 : Player := { Player.new 400 80 352 with attackInvincibilityTimer := 5 }

/-- Concrete obstacle overlapping the C6 witness player. -/
def obstacleC6 : Obstacle :=
  { x := 80, y := 352, width := 40, height := 40, speed := 5,
    markedForDeletion := false, obstacleType := 0, frameX := 0, frameTimer := 0,
    pulseValue := 0, pulseDirection := 1 }

/-- Concrete game state for the C6 witness. -/
def gameC6 : Game :=
  { isRunning := true, gameOver := false, score := 0, highScore := 0,
    player := playerC6,
    spawnManager := { SpawnManager.new with obstacles := [obstacleC6] },
    powerUpManager := PowerUpManager.new,
    enemies := [Enemy.new 400 80 352] }

/-- C6 witness: on the concrete attack-invincible state, the obstacle
phase awards 2 points, the enemy phase awards 5, and the enemy pool size
is preserved. -/
theorem invincible_collision_spec_w :
    (gameC6.checkObstacleCollisions).score = 2 ∧
    (gameC6.checkEnemyCollisions).score = 5 ∧
    (gameC6.checkEnemyCollisions).enemies.length = 1 := by
  have h := invincible_collision_spec gameC6 (by decide)
  refine ⟨?_, ?_, ?_⟩
  · rw [h.2.2.1]
    norm_num [gameC6, playerC6, obstacleC6, Player.collidesWith, Box.overlaps,
      Player.new, List.countP_cons]
  · rw [h.2.2.2.2.2.2.1]
    norm_num [gameC6, playerC6, Enemy.new, Player.collidesWith, Box.overlaps,
      Player.new, List.countP_cons]
  · rw [h.2.2.2.2.1]
    simp [gameC6]

lemma obstacleChecksCount_stops (p : Player) (hp : p.isInvincible = false)
    (l : List Obstacle) (hHit : ∃ o ∈ l, p.collidesWith (.obstacle o) = true) :
    obstacleChecksCount p l =
      (l.takeWhile fun o => !p.collidesWith (.obstacle o)).length + 1 := by
  induction l with
  | nil => simp at hHit
  | cons o t ih =>
    by_cases hc : p.collidesWith (.obstacle o)
    · simp [obstacleChecksCount, hc, hp, List.takeWhile_cons]
    · obtain ⟨o', ho', hco'⟩ := hHit
      have ho'' : o' ∈ t := by
        rcases List.mem_cons.mp ho' with h | h
        · exact absurd (h ▸ hco') (by simpa using hc)
        · exact h
      have := ih ⟨o', ho'', hco'⟩
      simp [obstacleChecksCount, hc, hp, List.takeWhile_cons, this]
      omega

/-- C2 (amended): if the Collision Resolver finds an overlap between a
non-invincible Actor and an obstacle, the game-over flag becomes true
immediately and no further obstacle checks are evaluated in that tick (the
loop stops right after the first overlapping obstacle); however, the enemy
collision loop is still executed afterwards — with a nonempty enemy pool
it evaluates at least one enemy check — contrary to the claim that no
further obstacle or enemy checks happen at all. -/
theorem checkCollisions_gameOver_spec (g : Game)
    (hInv : g.player.isInvincible = false)
    (hHit : ∃ o ∈ g.spawnManager.obstacles,
      g.player.collidesWith (.obstacle o) = true) :
    (g.checkObstacleCollisions).gameOver = true ∧
    (g.checkCollisions).gameOver = true ∧
    obstacleChecksCount g.player g.spawnManager.obstacles =
      (g.spawnManager.obstacles.takeWhile
        fun o => !g.player.collidesWith (.obstacle o)).length + 1 ∧
    (g.checkObstacleCollisions).player = g.player ∧
    (g.checkObstacleCollisions).enemies = g.enemies ∧
    (g.enemies ≠ [] → 1 ≤ enemyChecksCount g.player g.enemies) := by
  obtain ⟨hpl, hen, _, _, _, _, _, _, _, _, _, _, hgov⟩ :=
    checkObstacleCollisions_fields g
  have hgo := obstacleCollisionsGo_vulnerable g.player hInv g.spawnManager.obstacles
  have hany : (g.spawnManager.obstacles.any
      fun o => g.player.collidesWith (.obstacle o)) = true := by
    obtain ⟨o, ho, hc⟩ := hHit
    exact List.any_eq_true.mpr ⟨o, ho, hc⟩
  have h1 : (g.checkObstacleCollisions).gameOver = true := by
    rw [hgov, hgo]
    simp [hany]
  refine ⟨h1, ?_, obstacleChecksCount_stops g.player hInv _ hHit, hpl, hen, ?_⟩
  · unfold Game.checkCollisions
    obtain ⟨_, _, _, _, _, _, hgovE⟩ :=
      checkEnemyCollisions_fields g.checkObstacleCollisions
    obtain ⟨_, _, _, _, _, _, _, _, _, _, _, _, hgovC⟩ :=
      checkCoinCollisions_fields g.checkObstacleCollisions.checkEnemyCollisions
    rw [hgovC, hgovE, h1]
    simp
  · intro hne
    obtain ⟨e, t, het⟩ := List.exists_cons_of_ne_nil hne
    rw [het]
    simp [enemyChecksCount]

/-- Concrete obstacle for the C2 counterexample, overlapping the fresh
player. -/
def obstacleC2 : Obstacle :=
  { x := 80, y := 352, width := 40, height := 40, speed := 5,
    markedForDeletion := false, obstacleType := 0, frameX := 0, frameTimer := 0,
    pulseValue := 0, pulseDirection := 1 }

/-- Concrete game state for the C2 counterexample: a vulnerable player
overlapping one obstacle, with one (non-overlapping) enemy in the pool. -/
def gameC2 : Game :=
  { isRunning := true, gameOver := false, score := 0, highScore := 0,
    player := Player.new 400 80 352,
    spawnManager := { SpawnManager.new with obstacles := [obstacleC2] },
    powerUpManager := PowerUpManager.new,
    enemies := [Enemy.new 400 700 352] }

/-- C2 counterexample: on `gameC2` the non-invincible obstacle overlap
sets the game-over flag, yet the enemy collision loop of the very same
`checkCollisions` call still evaluates one enemy check — the claim's
assertion that no further obstacle or enemy checks are evaluated that tick
would require this count to be 0. -/
theorem checkCollisions_gameOver_cex :
    gameC2.player.isInvincible = false ∧
    (gameC2.checkObstacleCollisions).gameOver = true ∧
    (gameC2.checkCollisions).gameOver = true ∧
    enemyChecksCount gameC2.player gameC2.enemies = 1 := by
  have hinv : gameC2.player.isInvincible = false := by decide
  have hcol : (Player.new 400 80 352).collidesWith (.obstacle obstacleC2) = true := by
    simp only [obstacleC2, Player.collidesWith, Box.overlaps, Player.new]
    norm_num
  have hany : (gameC2.spawnManager.obstacles.any
      fun o => gameC2.player.collidesWith (.obstacle o)) = true := by
    simp [gameC2, hcol]
  have h1 : (gameC2.checkObstacleCollisions).gameOver = true := by
    rw [(checkObstacleCollisions_fields gameC2).2.2.2.2.2.2.2.2.2.2.2.2,
      obstacleCollisionsGo_vulnerable gameC2.player hinv]
    simp [hany]
  refine ⟨hinv, h1, ?_, by simp [enemyChecksCount, gameC2]⟩
  unfold Game.checkCollisions
  rw [(checkCoinCollisions_fields _).2.2.2.2.2.2.2.2.2.2.2.2,
    (checkEnemyCollisions_fields _).2.2.2.2.2.2, h1]
  simp

/-- C2 witness: the amended statement applied to the concrete state
`gameC2` — the game ends and the obstacle loop evaluated exactly one
check (its first obstacle already overlaps). -/
theorem checkCollisions_gameOver_spec_w :
    (gameC2.checkCollisions).gameOver = true ∧
    obstacleChecksCount gameC2.player gameC2.spawnManager.obstacles = 1 ∧
    1 ≤ enemyChecksCount gameC2.player gameC2.enemies := by
  have hcol : (Player.new 400 80 352).collidesWith (.obstacle obstacleC2) = true := by
    simp only [obstacleC2, Player.collidesWith, Box.overlaps, Player.new]
    norm_num
  have h := checkCollisions_gameOver_spec gameC2 (by decide)
    ⟨obstacleC2, by simp [gameC2], by simpa [gameC2] using hcol⟩
  refine ⟨h.2.1, ?_, h.2.2.2.2.2 (by simp [gameC2])⟩
  rw [h.2.2.1]
  simp [gameC2, List.takeWhile_cons, hcol]

lemma Obstacle.update_x (o : Obstacle) : (Obstacle.update o).x = o.x - o.speed := rfl

lemma Obstacle.update_speed (o : Obstacle) : (Obstacle.update o).speed = o.speed := rfl

lemma spawnManagerUpdate_obstacles (sm : SpawnManager) (score : ℕ) (px py ph : ℚ)
    (hPU : Bool) (sqrtQ : ℚ → ℚ) (oR : ℚ × ℚ) (cR : ℚ × ℚ × ℚ) :
    (sm.update score px py ph hPU sqrtQ oR cR).obstacles =
      ((if sm.obstacles.length = 0 ∧ sm.obstacleInterval ≤ sm.obstacleTimer + 1 then
          sm.obstacles ++
            [Obstacle.new canvasWidth canvasHeight
              (sm.baseSpeed * (1 + (score / 10 : ℕ) * 0.1)) oR.1 oR.2]
        else sm.obstacles).map Obstacle.update).filter
          (fun o => !o.markedForDeletion) := by
  unfold SpawnManager.update
  by_cases h1 : sm.obstacles.length = 0 <;>
    by_cases h2 : sm.obstacleInterval ≤ sm.obstacleTimer + 1 <;>
      simp [h1, h2, Nat.pos_iff_ne_zero]

lemma spawnManagerUpdate_intervals (sm : SpawnManager) (score : ℕ) (px py ph : ℚ)
    (hPU : Bool) (sqrtQ : ℚ → ℚ) (oR : ℚ × ℚ) (cR : ℚ × ℚ × ℚ) :
    (sm.update score px py ph hPU sqrtQ oR cR).obstacleInterval =
      (if sm.obstacles.length = 0 ∧ sm.obstacleInterval ≤ sm.obstacleTimer + 1 then
        max 60 (sm.obstacleInterval - 1)
       else sm.obstacleInterval) ∧
    (sm.update score px py ph hPU sqrtQ oR cR).coinInterval =
      (if sm.coinInterval ≤ sm.coinTimer + 1 then max 40 (sm.coinInterval - 1)
       else sm.coinInterval) ∧
    (sm.update score px py ph hPU sqrtQ oR cR).baseSpeed = sm.baseSpeed := by
  unfold SpawnManager.update
  by_cases h1 : sm.obstacles.length = 0 <;>
    by_cases h2 : sm.obstacleInterval ≤ sm.obstacleTimer + 1 <;>
      by_cases h3 : sm.coinInterval ≤ sm.coinTimer + 1 <;>
        simp [h1, h2, h3, Nat.pos_iff_ne_zero]

lemma spawnManagerUpdate_obstacles_length (sm : SpawnManager) (score : ℕ)
    (px py ph : ℚ) (hPU : Bool) (sqrtQ : ℚ → ℚ) (oR : ℚ × ℚ) (cR : ℚ × ℚ × ℚ)
    (hlen : sm.obstacles.length ≤ 1) :
    (sm.update score px py ph hPU sqrtQ oR cR).obstacles.length ≤ 1 := by
  rw [spawnManagerUpdate_obstacles]
  by_cases h : sm.obstacles.length = 0 ∧ sm.obstacleInterval ≤ sm.obstacleTimer + 1
  · rw [if_pos h]
    have h1 := List.length_filter_le (fun o : Obstacle => !o.markedForDeletion)
      ((sm.obstacles ++ [Obstacle.new canvasWidth canvasHeight
        (sm.baseSpeed * (1 + (score / 10 : ℕ) * 0.1)) oR.1 oR.2]).map Obstacle.update)
    simp only [List.length_map, List.length_append, List.length_singleton] at h1
    omega
  · rw [if_neg h]
    have h1 := List.length_filter_le (fun o : Obstacle => !o.markedForDeletion)
      (sm.obstacles.map Obstacle.update)
    simp only [List.length_map] at h1
    omega

lemma spawnManagerUpdate_no_spawn (sm : SpawnManager) (score : ℕ) (px py ph : ℚ)
    (hPU : Bool) (sqrtQ : ℚ → ℚ) (oR : ℚ × ℚ) (cR : ℚ × ℚ × ℚ)
    (hne : 1 ≤ sm.obstacles.length) :
    (sm.update score px py ph hPU sqrtQ oR cR).obstacles.length ≤
      sm.obstacles.length := by
  rw [spawnManagerUpdate_obstacles]
  have h : ¬(sm.obstacles.length = 0 ∧ sm.obstacleInterval ≤ sm.obstacleTimer + 1) := by
    omega
  rw [if_neg h]
  have h1 := List.length_filter_le (fun o : Obstacle => !o.markedForDeletion)
    (sm.obstacles.map Obstacle.update)
  simp only [List.length_map] at h1
  omega

lemma spawnManagerUpdate_obstacles_bound (sm : SpawnManager) (score : ℕ)
    (px py ph : ℚ) (hPU : Bool) (sqrtQ : ℚ → ℚ) (oR : ℚ × ℚ) (cR : ℚ × ℚ × ℚ)
    (hx : ∀ o ∈ sm.obstacles, o.x ≤ 800 ∧ 0 ≤ o.speed)
    (hbase : 0 ≤ sm.baseSpeed) :
    ∀ o ∈ (sm.update score px py ph hPU sqrtQ oR cR).obstacles,
      o.x ≤ 800 ∧ 0 ≤ o.speed := by
  rw [spawnManagerUpdate_obstacles]
  intro o ho
  have ho1 := List.mem_of_mem_filter ho
  obtain ⟨a, ha, rfl⟩ := List.mem_map.mp ho1
  have hax : a.x ≤ 800 ∧ 0 ≤ a.speed := by
    by_cases h : sm.obstacles.length = 0 ∧ sm.obstacleInterval ≤ sm.obstacleTimer + 1
    · rw [if_pos h] at ha
      rcases List.mem_append.mp ha with h' | h'
      · exact hx a h'
      · have : a = Obstacle.new canvasWidth canvasHeight
            (sm.baseSpeed * (1 + (score / 10 : ℕ) * 0.1)) oR.1 oR.2 := by
          simpa using h'
        subst this
        constructor
        · simp [Obstacle.new, canvasWidth]
        · simp only [Obstacle.new]
          have h01 : (0 : ℚ) ≤ 1 + (score / 10 : ℕ) * 0.1 := by positivity
          exact mul_nonneg hbase h01
    · rw [if_neg h] at ha
      exact hx a ha
  rw [Obstacle.update_x, Obstacle.update_speed]
  constructor
  · linarith [hax.1, hax.2]
  · exact hax.2

lemma obstacleCollisionsGo_length (p : Player) (l : List Obstacle) :
    (obstacleCollisionsGo p l).1.length = l.length := by
  induction l with
  | nil => rfl
  | cons o t ih =>
    by_cases hc : p.collidesWith (.obstacle o) <;>
      by_cases hi : p.isInvincible <;>
        simp [obstacleCollisionsGo, hc, hi, ih]

lemma obstacleCollisionsGo_mem (p : Player) (l : List Obstacle) :
    ∀ o' ∈ (obstacleCollisionsGo p l).1, ∃ o ∈ l, o'.x = o.x ∧ o'.speed = o.speed := by
  by_cases hi : p.isInvincible = true
  · rw [obstacleCollisionsGo_invincible p hi]
    intro o' ho'
    obtain ⟨a, ha, rfl⟩ := List.mem_map.mp ho'
    by_cases hc : p.collidesWith (.obstacle a) <;> exact ⟨a, ha, by simp [hc]⟩
  · rw [obstacleCollisionsGo_vulnerable p (by simpa using hi)]
    intro o' ho'
    exact ⟨o', ho', rfl, rfl⟩

lemma spawnEnemy_fields (g : Game) (r : ℚ) :
    (g.spawnEnemy r).1.player = g.player ∧
    (g.spawnEnemy r).1.spawnManager = g.spawnManager ∧
    (g.spawnEnemy r).1.powerUpManager = g.powerUpManager ∧
    (g.spawnEnemy r).1.score = g.score ∧
    (g.spawnEnemy r).1.gameOver = g.gameOver ∧
    (g.spawnEnemy r).1.isRunning = g.isRunning := by
  unfold Game.spawnEnemy
  by_cases h : (g.spawnManager.obstacles.any
      fun o => decide (|o.x - (canvasWidth + 500 + r * 300)| < 350)) <;>
    simp [h]

lemma activatePowerUp_fields (g : Game) :
    (g.activatePowerUp).1.spawnManager = g.spawnManager ∧
    (g.activatePowerUp).1.score = g.score ∧
    (g.activatePowerUp).1.enemies = g.enemies ∧
    (g.activatePowerUp).1.gameOver = g.gameOver ∧
    (g.activatePowerUp).1.isRunning = g.isRunning := by
  unfold Game.activatePowerUp
  by_cases h1 : g.powerUpManager.isSuperPowerUpAvailable <;>
    by_cases h2 : g.powerUpManager.isPowerUpAvailable <;>
      simp [h1, h2]

lemma updateCore_spawnManager (g : Game) (tr : TickRand) (sqrtQ : ℚ → ℚ) :
    (g.updateCore tr sqrtQ).spawnManager =
      g.spawnManager.update g.score (g.player.update).x (g.player.update).y
        (g.player.update).height (g.player.update).hasPowerUp sqrtQ
        tr.obstacleRoll tr.coinRoll := by
  unfold Game.updateCore
  dsimp only
  split
  · exact (spawnEnemy_fields _ tr.enemyRollA).2.1
  · rfl

lemma update_spawnManager (g : Game) (tr : TickRand) (sqrtQ : ℚ → ℚ) :
    (g.update tr sqrtQ).spawnManager = (g.updateCore tr sqrtQ).spawnManager := by
  unfold Game.update
  dsimp only
  split
  · exact (spawnEnemy_fields _ tr.enemyRollB).2.1
  · rfl

/-- The spawn-manager part of the reachable-state invariant: at most one
live obstacle, every live obstacle is at or left of the spawn edge
(`x ≤ 800`) with non-negative speed, the base speed is non-negative, and
the spawn intervals sit at or above their floors. -/
def SpawnInv (sm : SpawnManager) : Prop :=
  sm.obstacles.length ≤ 1 ∧
  (∀ o ∈ sm.obstacles, o.x ≤ 800 ∧ 0 ≤ o.speed) ∧
  0 ≤ sm.baseSpeed ∧
  60 ≤ sm.obstacleInterval ∧
  40 ≤ sm.coinInterval

/-- The reachable-state invariant of the game. -/
def GameInv (g : Game) : Prop := SpawnInv g.spawnManager

/-- The states of the modelled game reachable from a fresh `Game` by
starting, game-loop ticks, restarts, and the jump/attack input
handlers. -/
inductive Reachable : Game → Prop where
  | init (h : ℕ) (r : ℚ) : Reachable (Game.new h r)
  | start {g : Game} : Reachable g → Reachable g.start
  | tick {g : Game} (tr : TickRand) (sqrtQ : ℚ → ℚ) :
      Reachable g → Reachable (g.tick tr sqrtQ)
  | restart {g : Game} (r : ℚ) : Reachable g → Reachable (g.restart r)
  | jumpKey {g : Game} : Reachable g → Reachable g.jumpIntent
  | attackKey {g : Game} : Reachable g → Reachable g.attackIntent

lemma spawnInv_update (sm : SpawnManager) (score : ℕ) (px py ph : ℚ) (hPU : Bool)
    (sqrtQ : ℚ → ℚ) (oR : ℚ × ℚ) (cR : ℚ × ℚ × ℚ) (h : SpawnInv sm) :
    SpawnInv (sm.update score px py ph hPU sqrtQ oR cR) := by
  obtain ⟨h1, h2, h3, h4, h5⟩ := h
  obtain ⟨hi1, hi2, hi3⟩ := spawnManagerUpdate_intervals sm score px py ph hPU sqrtQ oR cR
  refine ⟨spawnManagerUpdate_obstacles_length sm score px py ph hPU sqrtQ oR cR h1,
    spawnManagerUpdate_obstacles_bound sm score px py ph hPU sqrtQ oR cR h2 h3,
    ?_, ?_, ?_⟩
  · rw [hi3]
    exact h3
  · rw [hi1]
    split_ifs <;> omega
  · rw [hi2]
    split_ifs <;> omega

lemma checkCollisions_spawnManager (g : Game) :
    (g.checkCollisions).spawnManager.obstacles =
      (obstacleCollisionsGo g.player g.spawnManager.obstacles).1 ∧
    (g.checkCollisions).spawnManager.obstacleInterval =
      g.spawnManager.obstacleInterval ∧
    (g.checkCollisions).spawnManager.coinInterval = g.spawnManager.coinInterval ∧
    (g.checkCollisions).spawnManager.baseSpeed = g.spawnManager.baseSpeed := by
  unfold Game.checkCollisions
  obtain ⟨_, _, _, _, hobsO, _, _, _, hoiO, hciO, hbsO, _, _⟩ :=
    checkObstacleCollisions_fields g
  obtain ⟨_, hsmE, _, _, _, _, _⟩ := checkEnemyCollisions_fields g.checkObstacleCollisions
  obtain ⟨_, _, _, _, hobsC, _, _, _, hoiC, hciC, hbsC, _, _⟩ :=
    checkCoinCollisions_fields g.checkObstacleCollisions.checkEnemyCollisions
  refine ⟨?_, ?_, ?_, ?_⟩
  · rw [hobsC, hsmE, hobsO]
  · rw [hoiC, hsmE, hoiO]
  · rw [hciC, hsmE, hciO]
  · rw [hbsC, hsmE, hbsO]

lemma spawnInv_checkCollisions (g : Game) (h : SpawnInv g.spawnManager) :
    SpawnInv (g.checkCollisions).spawnManager := by
  obtain ⟨hobs, hoi, hci, hbs⟩ := checkCollisions_spawnManager g
  obtain ⟨h1, h2, h3, h4, h5⟩ := h
  refine ⟨?_, ?_, ?_, ?_, ?_⟩
  · rw [hobs, obstacleCollisionsGo_length]
    exact h1
  · rw [hobs]
    intro o' ho'
    obtain ⟨o, ho, hx, hs⟩ := obstacleCollisionsGo_mem g.player _ o' ho'
    rw [hx, hs]
    exact h2 o ho
  · rw [hbs]
    exact h3
  · rw [hoi]
    exact h4
  · rw [hci]
    exact h5

lemma tick_inv (g : Game) (tr : TickRand) (sqrtQ : ℚ → ℚ) (h : GameInv g) :
    GameInv (g.tick tr sqrtQ) := by
  unfold Game.tick
  dsimp only
  split
  · have hupd : SpawnInv ((g.update tr sqrtQ).spawnManager) := by
      rw [update_spawnManager, updateCore_spawnManager]
      exact spawnInv_update _ _ _ _ _ _ _ _ _ h
    have hcol : SpawnInv (((g.update tr sqrtQ).checkCollisions).spawnManager) :=
      spawnInv_checkCollisions _ hupd
    split
    · show SpawnInv _
      rw [(activatePowerUp_fields _).1]
      exact hcol
    · exact hcol
  · exact h

lemma reachable_inv : ∀ g : Game, Reachable g → GameInv g := by
  intro g hg
  induction hg with
  | init h r =>
    show SpawnInv _
    unfold Game.new
    dsimp only
    rw [(spawnEnemy_fields _ _).2.1]
    refine ⟨by simp [SpawnManager.new], by simp [SpawnManager.new], ?_,
      by simp [SpawnManager.new], by simp [SpawnManager.new]⟩
    simp [SpawnManager.new]
  | start hg ih =>
    unfold Game.start
    split
    · exact ih
    · exact ih
  | tick tr sqrtQ hg ih => exact tick_inv _ tr sqrtQ ih
  | restart r hg ih =>
    show SpawnInv _
    unfold Game.restart
    dsimp only
    rw [(spawnEnemy_fields _ _).2.1]
    refine ⟨by simp [SpawnManager.reset], by simp [SpawnManager.reset], ?_,
      by simp [SpawnManager.reset], by simp [SpawnManager.reset]⟩
    simpa [SpawnManager.reset] using ih.2.2.1
  | jumpKey hg ih =>
    unfold Game.jumpIntent
    split
    · exact ih
    · exact ih
  | attackKey hg ih =>
    unfold Game.attackIntent
    split
    · exact ih
    · exact ih

/-- C4: on every reachable state the obstacle pool holds at most one live
obstacle, and the Spawn Scheduler never creates a new obstacle while one
exists — whenever at least one obstacle is live, a spawn-manager update
cannot increase the pool size, and the resulting pool consists solely of
the updated-and-swept existing obstacles, with nothing pushed. -/
theorem obstaclePool_invariant :
    (∀ g : Game, Reachable g → g.spawnManager.obstacles.length ≤ 1) ∧
    (∀ (sm : SpawnManager) (score : ℕ) (px py ph : ℚ) (hPU : Bool)
      (sqrtQ : ℚ → ℚ) (oR : ℚ × ℚ) (cR : ℚ × ℚ × ℚ),
      1 ≤ sm.obstacles.length →
      (sm.update score px py ph hPU sqrtQ oR cR).obstacles.length ≤
        sm.obstacles.length) ∧
    (∀ (sm : SpawnManager) (score : ℕ) (px py ph : ℚ) (hPU : Bool)
      (sqrtQ : ℚ → ℚ) (oR : ℚ × ℚ) (cR : ℚ × ℚ × ℚ),
      1 ≤ sm.obstacles.length →
      (sm.update score px py ph hPU sqrtQ oR cR).obstacles =
        (sm.obstacles.map Obstacle.update).filter
          (fun o => !o.markedForDeletion)) := by
  refine ⟨fun g hg => (reachable_inv g hg).1,
    fun sm score px py ph hPU sqrtQ oR cR h =>
      spawnManagerUpdate_no_spawn sm score px py ph hPU sqrtQ oR cR h,
    fun sm score px py ph hPU sqrtQ oR cR h => ?_⟩
  rw [spawnManagerUpdate_obstacles]
  rw [if_neg (by omega :
    ¬(sm.obstacles.length = 0 ∧ sm.obstacleInterval ≤ sm.obstacleTimer + 1))]

/-- Concrete obstacle for the C4 witness pool. -/
def obstacleC4 : Obstacle :=
  { x := 400, y := 340, width := 40, height := 40, speed := 5,
    markedForDeletion := false, obstacleType := 0, frameX := 0, frameTimer := 0,
    pulseValue := 0, pulseDirection := 1 }

/-- C4 witness: the invariant at the freshly constructed game, and a
no-new-spawn update step on a concrete one-obstacle pool. -/
theorem obstaclePool_invariant_w :
    (Game.new 0 0).spawnManager.obstacles.length ≤ 1 ∧
    (({ SpawnManager.new with obstacles := [obstacleC4] } : SpawnManager).update
      0 0 352 48 false (fun q => q) (0, 0) (0, 0, 0)).obstacles.length ≤ 1 := by
  constructor
  · exact obstaclePool_invariant.1 _ (Reachable.init 0 0)
  · have h := obstaclePool_invariant.2.1
      { SpawnManager.new with obstacles := [obstacleC4] } 0 0 352 48 false
      (fun q => q) (0, 0) (0, 0, 0) (by simp)
    simpa using h

lemma spawnEnemy_success (g : Game) (r : ℚ) (hr : 0 ≤ r)
    (hx : ∀ o ∈ g.spawnManager.obstacles, o.x ≤ 800) :
    g.spawnEnemy r =
      ({ g with enemies := g.enemies ++ [Enemy.new canvasHeight
        (canvasWidth + 500 + r * 300) (canvasHeight - 48)] }, true) := by
  unfold Game.spawnEnemy
  have hno : (g.spawnManager.obstacles.any
      fun o => decide (|o.x - (canvasWidth + 500 + r * 300)| < 350)) = false := by
    rw [List.any_eq_false]
    intro o ho
    simp only [decide_eq_true_eq]
    intro habs
    have h8 := hx o ho
    have h300 : (0 : ℚ) ≤ r * 300 := mul_nonneg hr (by norm_num)
    have hgap : canvasWidth + 500 + r * 300 - o.x ≥ 500 := by
      unfold canvasWidth
      linarith
    rw [abs_sub_comm, abs_of_nonneg (by linarith)] at habs
    linarith
  simp [hno]

/-- C5: for every tick of a state satisfying the reachable-state
invariant (which the final conjunct shows every reachable state does), if
the live enemy count reaches 0 during `Game.update` — i.e. after the
per-enemy updates, the score-based extra spawn, and the deletion sweep —
then the final guarantee of `Game.update` spawns exactly one enemy before
the tick's collision phase, and the spawn attempt is accepted rather than
deferred: a rejected candidate would not change the state (the
`setTimeout` retry is scheduled, nothing is dropped), but no rejection can
occur, because every live obstacle sits at `x ≤ 800` while every enemy
candidate spawns at `x ≥ 1300`, farther than the 350px exclusion
distance — so an enemy is guaranteed to spawn at once. -/
theorem enemyRespawn_spec (g : Game) (tr : TickRand) (sqrtQ : ℚ → ℚ)
    (hg : GameInv g) (hrB : 0 ≤ tr.enemyRollB)
    (hEmpty : (g.updateCore tr sqrtQ).enemies.length = 0) :
    (g.update tr sqrtQ).enemies =
      [Enemy.new canvasHeight (canvasWidth + 500 + tr.enemyRollB * 300)
        (canvasHeight - 48)] ∧
    (g.update tr sqrtQ).enemies.length = 1 ∧
    ((g.updateCore tr sqrtQ).spawnEnemy tr.enemyRollB).2 = true ∧
    (∀ (g' : Game) (r : ℚ), (g'.spawnEnemy r).2 = false → (g'.spawnEnemy r).1 = g') ∧
    (∀ g' : Game, Reachable g' → GameInv g') := by
  have hinv : SpawnInv ((g.updateCore tr sqrtQ).spawnManager) := by
    rw [updateCore_spawnManager]
    exact spawnInv_update _ _ _ _ _ _ _ _ _ hg
  have hx : ∀ o ∈ (g.updateCore tr sqrtQ).spawnManager.obstacles, o.x ≤ 800 :=
    fun o ho => (hinv.2.1 o ho).1
  have hs := spawnEnemy_success (g.updateCore tr sqrtQ) tr.enemyRollB hrB hx
  have he : (g.updateCore tr sqrtQ).enemies = [] := List.length_eq_zero.mp hEmpty
  have hu : g.update tr sqrtQ = ((g.updateCore tr sqrtQ).spawnEnemy tr.enemyRollB).1 := by
    unfold Game.update
    rw [if_pos hEmpty]
  refine ⟨?_, ?_, ?_, ?_, reachable_inv⟩
  · rw [hu, hs]
    simp [he]
  · rw [hu, hs]
    simp [he]
  · rw [hs]
  · intro g' r hf
    unfold Game.spawnEnemy at hf ⊢
    by_cases hc : (g'.spawnManager.obstacles.any
        fun o => decide (|o.x - (canvasWidth + 500 + r * 300)| < 350))
    · simp [hc]
    · simp [hc] at hf

/-- Concrete state for the C5 witness: a running game whose single enemy
is about to scroll off the left edge and be swept. -/
def gameC5 : Game :=
  { isRunning := true, gameOver := false, score := 0, highScore := 0,
    player := Player.new 400 80 352,
    spawnManager := SpawnManager.new,
    powerUpManager := PowerUpManager.new,
    enemies := [Enemy.new 400 (-50) 352] }

/-- Randomness bundle for the C5 witness tick. -/
def trC5 : TickRand := ⟨(0, 0), (0, 0, 0), 0, 0⟩

/-- C5 witness: on the concrete state the enemy pool empties during the
core update, and the tick ends with exactly one freshly spawned enemy,
its spawn accepted (not deferred). -/
theorem enemyRespawn_spec_w :
    (gameC5.update trC5 (fun q => q)).enemies.length = 1 ∧
    ((gameC5.updateCore trC5 (fun q => q)).spawnEnemy trC5.enemyRollB).2 = true := by
  have hEmpty : (gameC5.updateCore trC5 (fun q => q)).enemies.length = 0 := by
    norm_num [gameC5, trC5, Game.updateCore, Enemy.update, Enemy.new,
      Player.update, Player.new]
  have h := enemyRespawn_spec gameC5 trC5 (fun q => q)
    (by norm_num [GameInv, SpawnInv, gameC5, SpawnManager.new]) (by norm_num [trC5])
    hEmpty
  exact ⟨h.2.1, h.2.2.1⟩

lemma tick_spawnManager (g : Game) (tr : TickRand) (sqrtQ : ℚ → ℚ) :
    (g.tick tr sqrtQ).spawnManager =
      (if g.isRunning ∧ ¬g.gameOver then
        ((g.update tr sqrtQ).checkCollisions).spawnManager
       else g.spawnManager) := by
  unfold Game.tick
  dsimp only
  split
  case isTrue h =>
    split
    · exact (activatePowerUp_fields _).1
    · rfl
  case isFalse h => rfl

lemma tick_intervals (g : Game) (tr : TickRand) (sqrtQ : ℚ → ℚ) (h : GameInv g) :
    (g.tick tr sqrtQ).spawnManager.obstacleInterval ≤
      g.spawnManager.obstacleInterval ∧
    (g.tick tr sqrtQ).spawnManager.coinInterval ≤ g.spawnManager.coinInterval := by
  rw [tick_spawnManager]
  split
  · have hC := checkCollisions_spawnManager (g.update tr sqrtQ)
    have hEq : (g.update tr sqrtQ).spawnManager =
        g.spawnManager.update g.score (g.player.update).x (g.player.update).y
          (g.player.update).height (g.player.update).hasPowerUp sqrtQ
          tr.obstacleRoll tr.coinRoll := by
      rw [update_spawnManager, updateCore_spawnManager]
    have hI := spawnManagerUpdate_intervals g.spawnManager g.score
      (g.player.update).x (g.player.update).y (g.player.update).height
      (g.player.update).hasPowerUp sqrtQ tr.obstacleRoll tr.coinRoll
    obtain ⟨h1, h2, h3, h4, h5⟩ := h
    constructor
    · rw [hC.2.1, hEq, hI.1]
      split_ifs <;> omega
    · rw [hC.2.2.1, hEq, hI.2.1]
      split_ifs <;> omega
  · exact ⟨le_refl _, le_refl _⟩

lemma runTicks_intervals (sqrtQ : ℚ → ℚ) (l : List TickRand) :
    ∀ g : Game, GameInv g →
      ((l.foldl (fun a tr => a.tick tr sqrtQ) g).spawnManager.obstacleInterval ≤
        g.spawnManager.obstacleInterval) ∧
      ((l.foldl (fun a tr => a.tick tr sqrtQ) g).spawnManager.coinInterval ≤
        g.spawnManager.coinInterval) ∧
      GameInv (l.foldl (fun a tr => a.tick tr sqrtQ) g) := by
  induction l with
  | nil => exact fun g h => ⟨le_refl _, le_refl _, h⟩
  | cons tr t ih =>
    intro g h
    have h1 := tick_intervals g tr sqrtQ h
    have h2 := tick_inv g tr sqrtQ h
    obtain ⟨ia, ib, ic⟩ := ih (g.tick tr sqrtQ) h2
    exact ⟨le_trans ia h1.1, le_trans ib h1.2, ic⟩

/-- C8: a spawn-manager update resets the obstacle interval to
`max(60, previousInterval - 1)` exactly when an obstacle spawns (no live
obstacle and the countdown elapsed), and the coin interval to
`max(40, previousInterval - 1)` exactly when a coin spawns, leaving them
unchanged otherwise; on every reachable state the intervals sit at or
above their floors 60 and 40; and across every sequence of game-loop
ticks from a state satisfying the reachable-state invariant, both
intervals are non-increasing and never drop below their floors. -/
theorem spawnInterval_spec :
    (∀ (sm : SpawnManager) (score : ℕ) (px py ph : ℚ) (hPU : Bool)
      (sqrtQ : ℚ → ℚ) (oR : ℚ × ℚ) (cR : ℚ × ℚ × ℚ),
      (sm.update score px py ph hPU sqrtQ oR cR).obstacleInterval =
        (if sm.obstacles.length = 0 ∧ sm.obstacleInterval ≤ sm.obstacleTimer + 1 then
          max 60 (sm.obstacleInterval - 1)
         else sm.obstacleInterval) ∧
      (sm.update score px py ph hPU sqrtQ oR cR).coinInterval =
        (if sm.coinInterval ≤ sm.coinTimer + 1 then max 40 (sm.coinInterval - 1)
         else sm.coinInterval)) ∧
    (∀ g : Game, Reachable g →
      60 ≤ g.spawnManager.obstacleInterval ∧ 40 ≤ g.spawnManager.coinInterval) ∧
    (∀ (g : Game) (sqrtQ : ℚ → ℚ) (l : List TickRand), GameInv g →
      (l.foldl (fun a tr => a.tick tr sqrtQ) g).spawnManager.obstacleInterval ≤
        g.spawnManager.obstacleInterval ∧
      (l.foldl (fun a tr => a.tick tr sqrtQ) g).spawnManager.coinInterval ≤
        g.spawnManager.coinInterval ∧
      60 ≤ (l.foldl (fun a tr => a.tick tr sqrtQ) g).spawnManager.obstacleInterval ∧
      40 ≤ (l.foldl (fun a tr => a.tick tr sqrtQ) g).spawnManager.coinInterval) := by
  refine ⟨?_, ?_, ?_⟩
  · intro sm score px py ph hPU sqrtQ oR cR
    have h := spawnManagerUpdate_intervals sm score px py ph hPU sqrtQ oR cR
    exact ⟨h.1, h.2.1⟩
  · intro g hg
    have h := reachable_inv g hg
    exact ⟨h.2.2.2.1, h.2.2.2.2⟩
  · intro g sqrtQ l hg
    have h := runTicks_intervals sqrtQ l g hg
    exact ⟨h.1, h.2.1, h.2.2.2.2.2.1, h.2.2.2.2.2.2⟩

/-- C8 witness: a concrete non-spawning update keeps the interval at 100;
the fresh game's intervals are above the floors; a one-tick run from the
fresh game does not increase the obstacle interval. -/
theorem spawnInterval_spec_w :
    (SpawnManager.new.update 0 0 352 48 false (fun q => q) (0, 0) (0, 0, 0)
      ).obstacleInterval = 100 ∧
    60 ≤ (Game.new 0 0).spawnManager.obstacleInterval ∧
    ((([⟨(0, 0), (0, 0, 0), 0, 0⟩] : List TickRand).foldl
        (fun a tr => a.tick tr (fun q => q)) (Game.new 0 0)
      ).spawnManager.obstacleInterval ≤
      (Game.new 0 0).spawnManager.obstacleInterval) := by
  refine ⟨?_, ?_, ?_⟩
  · rw [(spawnInterval_spec.1 SpawnManager.new 0 0 352 48 false (fun q => q)
      (0, 0) (0, 0, 0)).1]
    norm_num [SpawnManager.new]
  · exact (spawnInterval_spec.2.1 _ (Reachable.init 0 0)).1
  · exact (spawnInterval_spec.2.2 (Game.new 0 0) (fun q => q)
      [⟨(0, 0), (0, 0, 0), 0, 0⟩] (reachable_inv _ (Reachable.init 0 0))).1
